import Mathlib

/-!
# Verification of the florist-CRM order-list core

A shallow embedding of the order-management screen of the repository:

* the page-window calculator `getPageNumbers`
  (`src/frontend/src/components/OrderPagination.tsx`),
* the list-state controller handlers `loadOrders`, `handlePageChange`,
  `handleFiltersChange`, `handlePageSizeChange`, `handleStatusChange`,
  `handleExecutorChange` (the `OrdersList` component),
* the mock order-query collaborator `mockApiCall` with its filter pipeline
  (`src/unnamed/part_001`).

JavaScript numbers used as page counts, ids and prices are modelled as `Nat`;
dates (ISO strings in the source) are modelled as `Nat` timestamps that
preserve the chronological order of the mock data; JavaScript truthiness
guards (`if (filters.x)`) are modelled explicitly: `0` and the empty string
count as absent.
-/

namespace Leken

/-- One entry of the pagination control row: a concrete page number or the
`'...'` placeholder pushed by `getPageNumbers`. -/
inductive PageEntry where
  | page (n : Nat)
  | ellipsis
  deriving DecidableEq

/-- Embedding of `getPageNumbers` from `OrderPagination.tsx` (lines 28-66):
`maxVisible = 5`; all pages when they fit, otherwise a near-start, near-end
or middle window with ellipsis markers.  The `for` loops of the source are
rendered as `List.range'` segments (`List.range' a k = [a, a+1, ..., a+k-1]`). -/
def getPageNumbers (totalPages currentPage : Nat) : List PageEntry :=
  let maxVisible := 5
  if totalPages ≤ maxVisible then
    (List.range' 1 totalPages).map PageEntry.page
  else if currentPage ≤ 3 then
    ((List.range' 1 4).map PageEntry.page) ++ [PageEntry.ellipsis, PageEntry.page totalPages]
  else if totalPages - 2 ≤ currentPage then
    [PageEntry.page 1, PageEntry.ellipsis] ++ (List.range' (totalPages - 3) 4).map PageEntry.page
  else
    [PageEntry.page 1, PageEntry.ellipsis]
      ++ ((List.range' (currentPage - 1) 3).map PageEntry.page)
      ++ [PageEntry.ellipsis, PageEntry.page totalPages]

/-- The piecewise reference sequence stated by the specification (§4.1):
T ≤ 5 gives every page; otherwise the near-start, near-end and middle
windows are spelled out entry by entry. -/
def pageWindowSpec (totalPages currentPage : Nat) : List PageEntry :=
  if totalPages ≤ 5 then
    (List.range' 1 totalPages).map PageEntry.page
  else if currentPage ≤ 3 then
    [PageEntry.page 1, PageEntry.page 2, PageEntry.page 3, PageEntry.page 4,
     PageEntry.ellipsis, PageEntry.page totalPages]
  else if totalPages - 2 ≤ currentPage then
    [PageEntry.page 1, PageEntry.ellipsis,
     PageEntry.page (totalPages - 3), PageEntry.page (totalPages - 2),
     PageEntry.page (totalPages - 1), PageEntry.page totalPages]
  else
    [PageEntry.page 1, PageEntry.ellipsis,
     PageEntry.page (currentPage - 1), PageEntry.page currentPage,
     PageEntry.page (currentPage + 1), PageEntry.ellipsis, PageEntry.page totalPages]

/-- The concrete page numbers of a pagination row, ellipsis entries dropped. -/
def concretePages (l : List PageEntry) : List Nat :=
  l.filterMap fun e =>
    match e with
    | PageEntry.page n => some n
    | PageEntry.ellipsis => none

lemma concretePages_map_page (l : List Nat) :
    concretePages (l.map PageEntry.page) = l := by
  induction l with
  | nil => rfl
  | cons a t ih => simp [concretePages, List.filterMap_cons] at ih ⊢; exact ih

lemma getPageNumbers_small {T : Nat} (C : Nat) (h : T ≤ 5) :
    getPageNumbers T C = (List.range' 1 T).map PageEntry.page := by
  simp [getPageNumbers, h]

lemma getPageNumbers_start {T C : Nat} (h1 : ¬ T ≤ 5) (h2 : C ≤ 3) :
    getPageNumbers T C =
      [PageEntry.page 1, PageEntry.page 2, PageEntry.page 3, PageEntry.page 4,
       PageEntry.ellipsis, PageEntry.page T] := by
  simp [getPageNumbers, h1, h2, List.range']

lemma getPageNumbers_end {T C : Nat} (h1 : ¬ T ≤ 5) (h2 : ¬ C ≤ 3) (h3 : T - 2 ≤ C) :
    getPageNumbers T C =
      [PageEntry.page 1, PageEntry.ellipsis,
       PageEntry.page (T - 3), PageEntry.page (T - 2),
       PageEntry.page (T - 1), PageEntry.page T] := by
  have e1 : T - 3 + 1 = T - 2 := by omega
  have e2 : T - 3 + 1 + 1 = T - 1 := by omega
  have e3 : T - 3 + 1 + 1 + 1 = T := by omega
  simp [getPageNumbers, h1, h2, h3, List.range', e1, e2, e3]
  omega

lemma getPageNumbers_middle {T C : Nat} (h1 : ¬ T ≤ 5) (h2 : ¬ C ≤ 3) (h3 : ¬ T - 2 ≤ C) :
    getPageNumbers T C =
      [PageEntry.page 1, PageEntry.ellipsis,
       PageEntry.page (C - 1), PageEntry.page C,
       PageEntry.page (C + 1), PageEntry.ellipsis, PageEntry.page T] := by
  have e1 : C - 1 + 1 = C := by omega
  have e2 : C - 1 + 1 + 1 = C + 1 := by omega
  simp [getPageNumbers, h1, h2, h3, List.range', e1, e2]

/-- C1: for every total-page count `T` and current page `C`, `getPageNumbers`
returns exactly the piecewise reference sequence of the specification: all of
`1..T` when `T ≤ 5` (so `T = 0` gives `[]` and `T = 1` gives `[1]`),
`[1,2,3,4,…,T]` when `T > 5` and `C ≤ 3`, `[1,…,T-3,T-2,T-1,T]` when `T > 5`
and `C ≥ T-2`, and `[1,…,C-1,C,C+1,…,T]` otherwise. -/
theorem getPageNumbers_eq_pageWindowSpec (T C : Nat) :
    getPageNumbers T C = pageWindowSpec T C ∧
    getPageNumbers 0 C = [] ∧
    getPageNumbers 1 C = [PageEntry.page 1] := by
  refine ⟨?_, ?_, ?_⟩
  · unfold pageWindowSpec
    split
    · next h => exact getPageNumbers_small C h
    · next h =>
      split
      · next h2 => exact getPageNumbers_start h h2
      · next h2 =>
        split
        · next h3 => exact getPageNumbers_end h h2 h3
        · next h3 => exact getPageNumbers_middle h h2 h3
  · simp [getPageNumbers]
  · simp [getPageNumbers, List.range']

/-- C2: for every `T ≥ 1` and `1 ≤ C ≤ T` (the caller's precondition) the
concrete page numbers of `getPageNumbers T C` are strictly increasing, hence
contain no duplicates — in particular at the `T = 6` boundary the near-start
window does not repeat page 4. -/
theorem getPageNumbers_strictly_increasing (T C : Nat)
    (hT : 1 ≤ T) (hC1 : 1 ≤ C) (hCT : C ≤ T) :
    List.Pairwise (· < ·) (concretePages (getPageNumbers T C)) ∧
    (concretePages (getPageNumbers T C)).Nodup := by
  have key : List.Pairwise (· < ·) (concretePages (getPageNumbers T C)) := by
    by_cases h1 : T ≤ 5
    · rw [getPageNumbers_small C h1, concretePages_map_page]
      exact List.pairwise_lt_range' 1 T
    · by_cases h2 : C ≤ 3
      · rw [getPageNumbers_start h1 h2]
        simp [concretePages, List.filterMap_cons, List.pairwise_cons]
        omega
      · by_cases h3 : T - 2 ≤ C
        · rw [getPageNumbers_end h1 h2 h3]
          simp [concretePages, List.filterMap_cons, List.pairwise_cons]
          omega
        · rw [getPageNumbers_middle h1 h2 h3]
          simp [concretePages, List.filterMap_cons, List.pairwise_cons]
          omega
  exact ⟨key, key.imp Nat.ne_of_lt⟩

/-- Witness for C2 at the `T = 6`, `C = 3` boundary named by the claim. -/
theorem getPageNumbers_strictly_increasing_witness :
    List.Pairwise (· < ·) (concretePages (getPageNumbers 6 3)) ∧
    (concretePages (getPageNumbers 6 3)).Nodup :=
  getPageNumbers_strictly_increasing 6 3 (by decide) (by decide) (by decide)

/-! ## Data model (`src/frontend/src/types/index.ts`)

`created_at` / `delivery_date` ISO strings are modelled as `Nat` timestamps
(digits of the ISO string), which preserves the chronological order the
source compares through `new Date(...).getTime()`. -/

/-- Embedding of the `Client` interface. -/
structure Client where
  id : Nat
  name : Option String
  phone : String
  email : Option String
  address : Option String
  client_type : String
  notes : Option String
  created_at : Nat
  deriving DecidableEq

/-- Embedding of the `User` interface. -/
structure User where
  id : Nat
  username : String
  email : String
  city : Option String
  position : Option String
  deriving DecidableEq

/-- The four-valued `OrderStatus` union:
`newOrder` = "новый", `inProgress` = "в работе", `ready` = "готов",
`delivered` = "доставлен". -/
inductive OrderStatus where
  | newOrder
  | inProgress
  | ready
  | delivered
  deriving DecidableEq

/-- Embedding of the `Order` interface. -/
structure Order where
  id : Nat
  client_id : Nat
  recipient_id : Nat
  executor_id : Option Nat
  status : OrderStatus
  delivery_date : Nat
  delivery_address : String
  total_price : Option Nat
  comment : Option String
  created_at : Nat
  client : Client
  recipient : Client
  executor : Option User
  deriving DecidableEq

/-- Embedding of the `OrderFilters` interface; `none` is an absent field. -/
structure OrderFilters where
  status : Option OrderStatus
  client_phone : Option String
  executor_id : Option Nat
  date_from : Option Nat
  date_to : Option Nat
  min_price : Option Nat
  max_price : Option Nat
  deriving DecidableEq

/-- The empty filter object `{}`. -/
def noFilters : OrderFilters :=
  { status := none, client_phone := none, executor_id := none,
    date_from := none, date_to := none, min_price := none, max_price := none }

/-- Embedding of the `OrderListResponse` interface. -/
structure OrderListResponse where
  orders : List Order
  total : Nat
  page : Nat
  page_size : Nat
  deriving DecidableEq

/-- The `pagination` sub-record of `OrderListState`. -/
structure Pagination where
  page : Nat
  page_size : Nat
  total : Nat
  deriving DecidableEq

/-- Embedding of the `OrderListState` interface held by `OrdersList`. -/
structure OrderListState where
  orders : List Order
  loading : Bool
  error : Option String
  filters : OrderFilters
  pagination : Pagination
  deriving DecidableEq

/-! ## List state controller (`OrdersList` in `OrderPagination.tsx`)

Each handler is embedded as a function from the pre-state (plus the outcome
the collaborator eventually delivers for the request the handler issues) to
the post-state, together with the list of API requests it sent and the toast
notifications it raised. -/

/-- A request sent to the `apiService` collaborator: a list reload
(`getOrders`), a status patch (`updateOrderStatus`) or an executor patch
(`updateOrderExecutor`). -/
inductive ApiRequest where
  | search (filters : OrderFilters) (page pageSize : Nat)
  | patchStatus (orderId : Nat) (status : OrderStatus)
  | patchExecutor (orderId : Nat) (executorId : Option Nat)
  deriving DecidableEq

/-- Whether a request is a list reload. -/
def ApiRequest.isSearch : ApiRequest → Bool
  | ApiRequest.search _ _ _ => true
  | _ => false

/-- A toast notification (`toast.success` / `toast.error`). -/
inductive Toast where
  | success
  | error
  deriving DecidableEq

/-- What one handler invocation produces: the post-state, the requests it
sent and the toasts it raised. -/
structure HandlerResult where
  state : OrderListState
  requests : List ApiRequest
  toasts : List Toast
  deriving DecidableEq

/-- The outcome the collaborator delivers for a list reload. -/
abbrev LoadResult : Type := Except Unit OrderListResponse

/-- The error message stored by a failed `loadOrders`. -/
def loadErrorMessage : String := "Ошибка загрузки заказов"

/-- Embedding of `loadOrders` (lines 187-215): sets `loading`, clears
`error`, sends one `getOrders` request; on success replaces `orders` and
`pagination` from the response, on failure leaves them and records the
error message (raising an error toast). -/
def loadOrders (s : OrderListState) (filters : OrderFilters) (page pageSize : Nat)
    (result : LoadResult) : HandlerResult :=
  let s1 : OrderListState := { s with loading := true, error := none }
  let req : ApiRequest := ApiRequest.search filters page pageSize
  match result with
  | Except.ok resp =>
      { state := { s1 with
          orders := resp.orders,
          pagination := { page := resp.page, page_size := resp.page_size, total := resp.total },
          loading := false },
        requests := [req],
        toasts := [] }
  | Except.error _ =>
      { state := { s1 with loading := false, error := some loadErrorMessage },
        requests := [req],
        toasts := [Toast.error] }

/-- Embedding of `handlePageChange` (lines 234-236): reloads the requested
page with the existing filters and page size. -/
def handlePageChange (s : OrderListState) (page : Nat) (result : LoadResult) : HandlerResult :=
  loadOrders s s.filters page s.pagination.page_size result

/-- Embedding of `handleFiltersChange` (lines 224-231): stores the new
filters, resets `pagination.page` to 1, then reloads page 1 with the new
filters and the existing page size. -/
def handleFiltersChange (s : OrderListState) (newFilters : OrderFilters)
    (result : LoadResult) : HandlerResult :=
  let s1 : OrderListState :=
    { s with filters := newFilters, pagination := { s.pagination with page := 1 } }
  loadOrders s1 newFilters 1 s.pagination.page_size result

/-- Embedding of `handlePageSizeChange` (lines 238-240): reloads page 1 with
the existing filters and the new page size (no synchronous state write). -/
def handlePageSizeChange (s : OrderListState) (pageSize : Nat)
    (result : LoadResult) : HandlerResult :=
  loadOrders s s.filters 1 pageSize result

/-- Embedding of `totalPages` (line 303): `Math.ceil(total / page_size)`. -/
def totalPagesOf (s : OrderListState) : Nat :=
  (s.pagination.total + s.pagination.page_size - 1) / s.pagination.page_size

/-- Embedding of `handleStatusChange` (lines 243-259): sends one status
patch; on success rewrites only the `status` field of the cached orders
whose id matches; on failure touches nothing.  Either way no reload. -/
def handleStatusChange (s : OrderListState) (orderId : Nat) (newStatus : OrderStatus)
    (result : Except Unit Unit) : HandlerResult :=
  let req : ApiRequest := ApiRequest.patchStatus orderId newStatus
  match result with
  | Except.ok _ =>
      { state := { s with
          orders := s.orders.map fun o =>
            if o.id = orderId then { o with status := newStatus } else o },
        requests := [req],
        toasts := [Toast.success] }
  | Except.error _ =>
      { state := s, requests := [req], toasts := [Toast.error] }

/-- Embedding of `const executor = executorId ? users.find(u => u.id ===
executorId) || null : null` — JavaScript truthiness makes `0` behave as
"no executor". -/
def lookupExecutor (users : List User) (executorId : Option Nat) : Option User :=
  match executorId with
  | none => none
  | some eid => if eid = 0 then none else users.find? fun u => u.id = eid

/-- Embedding of `handleExecutorChange` (lines 262-285): sends one executor
patch; on success rewrites only `executor_id` and the denormalized
`executor` of the cached orders whose id matches; on failure touches
nothing.  Either way no reload. -/
def handleExecutorChange (users : List User) (s : OrderListState) (orderId : Nat)
    (executorId : Option Nat) (result : Except Unit Unit) : HandlerResult :=
  let req : ApiRequest := ApiRequest.patchExecutor orderId executorId
  match result with
  | Except.ok _ =>
      { state := { s with
          orders := s.orders.map fun o =>
            if o.id = orderId
            then { o with executor_id := executorId, executor := lookupExecutor users executorId }
            else o },
        requests := [req],
        toasts := [Toast.success] }
  | Except.error _ =>
      { state := s, requests := [req], toasts := [Toast.error] }

/-! ## Mock data and mock collaborator (`src/unnamed/part_001`) -/

/-- Embedding of `mockClients[0]`. -/
def mockClient1 : Client :=
  { id := 1, name := some "Анна Петрова", phone := "+77012345678",
    email := some "anna@example.com", address := some "ул. Абая 150, кв. 25",
    client_type := "заказчик", notes := none, created_at := 202401151030 }

/-- Embedding of `mockClients[1]`. -/
def mockClient2 : Client :=
  { id := 2, name := some "Мария Иванова", phone := "+77087654321",
    email := some "maria@example.com", address := some "пр. Достык 240, офис 15",
    client_type := "получатель", notes := none, created_at := 202401201415 }

/-- Embedding of `mockClients[2]`. -/
def mockClient3 : Client :=
  { id := 3, name := some "Елена Смирнова", phone := "+77051234567",
    email := none, address := some "ул. Назарбаева 75",
    client_type := "оба", notes := some "Постоянный клиент", created_at := 202402010900 }

/-- Embedding of `mockUsers[0]`. -/
def mockUser1 : User :=
  { id := 1, username := "aidana_flores", email := "aidana@flores.kz",
    city := some "Алматы", position := some "Флорист" }

/-- Embedding of `mockUsers[1]`. -/
def mockUser2 : User :=
  { id := 2, username := "dmitry_manager", email := "dmitry@flores.kz",
    city := some "Алматы", position := some "Менеджер" }

/-- Embedding of `mockUsers[2]`. -/
def mockUser3 : User :=
  { id := 3, username := "sara_astana", email := "sara@flores.kz",
    city := some "Астана", position := some "Флорист" }

/-- The `mockUsers` array. -/
def mockUsers : List User := [mockUser1, mockUser2, mockUser3]

/-- Embedding of `mockOrders[0]`: price 15000, created 2024-12-20T10:30. -/
def mockOrder1 : Order :=
  { id := 1, client_id := 1, recipient_id := 2, executor_id := some 1,
    status := OrderStatus.newOrder, delivery_date := 20241225,
    delivery_address := "пр. Достык 240, офис 15", total_price := some 15000,
    comment := some "Букет из роз и лилий", created_at := 202412201030,
    client := mockClient1, recipient := mockClient2, executor := some mockUser1 }

/-- Embedding of `mockOrders[1]`: price 25000, created 2024-12-19T15:45. -/
def mockOrder2 : Order :=
  { id := 2, client_id := 2, recipient_id := 3, executor_id := none,
    status := OrderStatus.inProgress, delivery_date := 20241226,
    delivery_address := "ул. Назарбаева 75", total_price := some 25000,
    comment := none, created_at := 202412191545,
    client := mockClient2, recipient := mockClient3, executor := none }

/-- Embedding of `mockOrders[2]`: price 8000, created 2024-12-18T12:00. -/
def mockOrder3 : Order :=
  { id := 3, client_id := 3, recipient_id := 3, executor_id := some 2,
    status := OrderStatus.ready, delivery_date := 20241224,
    delivery_address := "ул. Назарбаева 75", total_price := some 8000,
    comment := some "Небольшая композиция", created_at := 202412181200,
    client := mockClient3, recipient := mockClient3, executor := some mockUser2 }

/-- Embedding of `mockOrders[3]`: price 12000, created 2024-12-17T09:15. -/
def mockOrder4 : Order :=
  { id := 4, client_id := 1, recipient_id := 1, executor_id := some 3,
    status := OrderStatus.delivered, delivery_date := 20241223,
    delivery_address := "ул. Абая 150, кв. 25", total_price := some 12000,
    comment := some "Букет на день рождения", created_at := 202412170915,
    client := mockClient1, recipient := mockClient1, executor := some mockUser3 }

/-- The `mockOrders` array. -/
def mockOrders : List Order := [mockOrder1, mockOrder2, mockOrder3, mockOrder4]

/-- Whether `hay` starts with `needle` (character lists). -/
def startsWithChars : List Char → List Char → Bool
  | [], _ => true
  | _ :: _, [] => false
  | a :: as, b :: bs => a = b && startsWithChars as bs

/-- Whether `needle` occurs somewhere in `hay` (character lists). -/
def containsChars : List Char → List Char → Bool
  | [], needle => startsWithChars needle []
  | c :: rest, needle => startsWithChars needle (c :: rest) || containsChars rest needle

/-- Embedding of JavaScript `t.includes(s)`: `s` is a substring of `t`. -/
def containsSubstr (t s : String) : Bool := containsChars t.data s.data

/-- One `if (filters.x) { list = list.filter(...) }` step of `mockApiCall`:
apply the predicate when the guard is active, otherwise pass through. -/
def optFilter (g : Option (Order → Bool)) (l : List Order) : List Order :=
  match g with
  | some q => l.filter q
  | none => l

/-- Guard of the `filters.status` step (line 133). -/
def statusGuard (f : OrderFilters) : Option (Order → Bool) :=
  match f.status with
  | some st => some fun o => decide (o.status = st)
  | none => none

/-- Guard of the `filters.client_phone` step (lines 139-144): matches the
filter string against both the client's and the recipient's phone; the empty
string is falsy and deactivates the step. -/
def phoneGuard (f : OrderFilters) : Option (Order → Bool) :=
  match f.client_phone with
  | some s =>
      if s = "" then none
      else some fun o => containsSubstr o.client.phone s || containsSubstr o.recipient.phone s
  | none => none

/-- Guard of the `filters.executor_id` step (line 146); `0` is falsy. -/
def executorGuard (f : OrderFilters) : Option (Order → Bool) :=
  match f.executor_id with
  | some eid => if eid = 0 then none else some fun o => decide (o.executor_id = some eid)
  | none => none

/-- Guard of the `filters.date_from` step (lines 150-153); the empty (falsy)
date is encoded as `0`. -/
def dateFromGuard (f : OrderFilters) : Option (Order → Bool) :=
  match f.date_from with
  | some d => if d = 0 then none else some fun o => decide (d ≤ o.delivery_date)
  | none => none

/-- Guard of the `filters.date_to` step (lines 156-159). -/
def dateToGuard (f : OrderFilters) : Option (Order → Bool) :=
  match f.date_to with
  | some d => if d = 0 then none else some fun o => decide (o.delivery_date ≤ d)
  | none => none

/-- Guard of the `filters.min_price` step (lines 162-166): active only for a
truthy (non-zero) bound, and `order.total_price && order.total_price >=
filters.min_price` rejects a null or zero price before comparing. -/
def minPriceGuard (f : OrderFilters) : Option (Order → Bool) :=
  match f.min_price with
  | some m =>
      if m = 0 then none
      else some fun o =>
        match o.total_price with
        | some p => decide (p ≠ 0) && decide (m ≤ p)
        | none => false
  | none => none

/-- Guard of the `filters.max_price` step (lines 168-172). -/
def maxPriceGuard (f : OrderFilters) : Option (Order → Bool) :=
  match f.max_price with
  | some m =>
      if m = 0 then none
      else some fun o =>
        match o.total_price with
        | some p => decide (p ≠ 0) && decide (p ≤ m)
        | none => false
  | none => none

/-- The full filter chain of `mockApiCall` (lines 130-172), in source order:
status, phone, executor, date_from, date_to, min_price, max_price. -/
def filterOrders (f : OrderFilters) (orders : List Order) : List Order :=
  optFilter (maxPriceGuard f)
    (optFilter (minPriceGuard f)
      (optFilter (dateToGuard f)
        (optFilter (dateFromGuard f)
          (optFilter (executorGuard f)
            (optFilter (phoneGuard f)
              (optFilter (statusGuard f) orders))))))

/-- The sort step (line 175): `Array.prototype.sort` with comparator
`dateB - dateA` is a stable sort putting the newest `created_at` first;
a stable sort under this total preorder has a unique result, here computed
by stable insertion sort. -/
def sortOrdersDesc (l : List Order) : List Order :=
  l.insertionSort fun a b => b.created_at ≤ a.created_at

/-- The whole `mockApiCall` pipeline over an arbitrary record set: filter,
sort, then `slice((page-1)*pageSize, (page-1)*pageSize + pageSize)`; the
response echoes `page` and `page_size` and reports the filtered total. -/
def searchOrders (records : List Order) (f : OrderFilters) (page pageSize : Nat) :
    OrderListResponse :=
  let filtered := filterOrders f records
  let sorted := sortOrdersDesc filtered
  let startIndex := (page - 1) * pageSize
  { orders := (sorted.drop startIndex).take pageSize,
    total := filtered.length, page := page, page_size := pageSize }

/-- Embedding of `mockApiCall` proper: the pipeline applied to the module-level
`mockOrders`. -/
def mockApiCall (f : OrderFilters) (page pageSize : Nat) : OrderListResponse :=
  searchOrders mockOrders f page pageSize

/-! ## Claims about the controller -/

/-- A controller state with `total = 47` and `page_size = 20`, so
`totalPages = 3` (the scenario of the spec's §8). -/
def sPage47 : OrderListState :=
  { orders := mockOrders, loading := false, error := none, filters := noFilters,
    pagination := { page := 1, page_size := 20, total := 47 } }

/-- Counterexample to C3: with `total = 47`, `page_size = 20`
(`totalPages = 3`), `change_page(4)` is *not* rejected — the handler has no
range check, so it issues a reload request for page 4 and the state changes
(here the failing reload records an error). -/
theorem handlePageChange_no_range_check :
    totalPagesOf sPage47 = 3 ∧
    (handlePageChange sPage47 4 (Except.error ())).requests ≠ [] ∧
    (handlePageChange sPage47 4 (Except.error ())).state ≠ sPage47 := by
  decide

/-- C3 amended: `change_page(n)` performs no range validation.  For every
state, target page `n` and outcome it issues exactly one reload request for
page `n` with the existing filters and page size (even when `n` is outside
`[1, ceil(total / page_size)]`); it never changes the filters, and when the
reload fails the pagination is also left unchanged.  Out-of-range pages are
unreachable only through the pagination UI, not rejected by the handler. -/
theorem handlePageChange_always_reloads (s : OrderListState) (n : Nat) (r : LoadResult) :
    (handlePageChange s n r).requests = [ApiRequest.search s.filters n s.pagination.page_size] ∧
    (handlePageChange s n r).state.filters = s.filters ∧
    ∀ e, (handlePageChange s n (Except.error e)).state.pagination = s.pagination := by
  refine ⟨?_, ?_, fun e => rfl⟩ <;> cases r <;> rfl

/-- C4: a reload is a full snapshot replace — on success the cached records
are replaced by the response's records and the pagination by the response's
`page`/`page_size`/`total` with the error cleared; on failure the previous
records and pagination are retained and the error message is recorded. -/
theorem loadOrders_snapshot (s : OrderListState) (f : OrderFilters) (p ps : Nat) :
    (∀ resp : OrderListResponse,
      (loadOrders s f p ps (Except.ok resp)).state.orders = resp.orders ∧
      (loadOrders s f p ps (Except.ok resp)).state.pagination =
        { page := resp.page, page_size := resp.page_size, total := resp.total } ∧
      (loadOrders s f p ps (Except.ok resp)).state.error = none) ∧
    (∀ e, (loadOrders s f p ps (Except.error e)).state.orders = s.orders ∧
      (loadOrders s f p ps (Except.error e)).state.pagination = s.pagination ∧
      (loadOrders s f p ps (Except.error e)).state.error = some loadErrorMessage) :=
  ⟨fun _ => ⟨rfl, rfl, rfl⟩, fun _ => ⟨rfl, rfl, rfl⟩⟩

/-- The frame property of a successful `set_status` / `set_executor`:
position by position, only the record whose id matches is rewritten, and
only in its `status` (resp. `executor_id` and denormalized `executor`)
field; filters, pagination, loading flag and error are untouched and no
reload request is sent. -/
def UpdateSuccessFrame (users : List User) (s : OrderListState) (orderId : Nat)
    (newStatus : OrderStatus) (executorId : Option Nat) : Prop :=
  let rs := handleStatusChange s orderId newStatus (Except.ok ())
  let re := handleExecutorChange users s orderId executorId (Except.ok ())
  rs.state.orders.length = s.orders.length ∧
  re.state.orders.length = s.orders.length ∧
  (∀ (i : Nat) (o : Order),
      s.orders[i]? = some o → o.id ≠ orderId → rs.state.orders[i]? = some o) ∧
  (∀ (i : Nat) (o : Order), s.orders[i]? = some o → o.id = orderId →
      rs.state.orders[i]? = some { o with status := newStatus }) ∧
  (∀ (i : Nat) (o : Order),
      s.orders[i]? = some o → o.id ≠ orderId → re.state.orders[i]? = some o) ∧
  (∀ (i : Nat) (o : Order), s.orders[i]? = some o → o.id = orderId →
      re.state.orders[i]? = some { o with executor_id := executorId,
                                          executor := lookupExecutor users executorId }) ∧
  rs.state.filters = s.filters ∧ rs.state.pagination = s.pagination ∧
  rs.state.loading = s.loading ∧ rs.state.error = s.error ∧
  re.state.filters = s.filters ∧ re.state.pagination = s.pagination ∧
  re.state.loading = s.loading ∧ re.state.error = s.error ∧
  rs.requests = [ApiRequest.patchStatus orderId newStatus] ∧
  re.requests = [ApiRequest.patchExecutor orderId executorId] ∧
  (∀ r ∈ rs.requests, r.isSearch = false) ∧
  (∀ r ∈ re.requests, r.isSearch = false)

/-- C5: a successful `set_status(order_id, new_status)` (resp.
`set_executor(order_id, executor_id_or_none)`) on a cached list containing
the order mutates only the matching record's status (resp. executor
reference); every other record and every other field is unchanged and no
reload request is issued. -/
theorem update_success_frame (users : List User) (s : OrderListState) (orderId : Nat)
    (newStatus : OrderStatus) (executorId : Option Nat)
    (hmem : ∃ o ∈ s.orders, o.id = orderId) :
    UpdateSuccessFrame users s orderId newStatus executorId := by
  clear hmem
  refine ⟨?_, ?_, ?_, ?_, ?_, ?_, rfl, rfl, rfl, rfl, rfl, rfl, rfl, rfl, rfl, rfl, ?_, ?_⟩
  · simp [handleStatusChange]
  · simp [handleExecutorChange]
  · intro i o h hne
    simp [handleStatusChange, List.getElem?_map, h, hne]
  · intro i o h heq
    simp [handleStatusChange, List.getElem?_map, h, heq]
  · intro i o h hne
    simp [handleExecutorChange, List.getElem?_map, h, hne]
  · intro i o h heq
    simp [handleExecutorChange, List.getElem?_map, h, heq]
  · intro r hr
    simp [handleStatusChange] at hr
    simp [hr, ApiRequest.isSearch]
  · intro r hr
    simp [handleExecutorChange] at hr
    simp [hr, ApiRequest.isSearch]

/-- The controller state holding the full mock order list. -/
def sMock : OrderListState :=
  { orders := mockOrders, loading := false, error := none, filters := noFilters,
    pagination := { page := 1, page_size := 20, total := 4 } }

/-- Witness for C5: the spec's scenario input — order id 2 is cached and
`set_status(2, "в работе")` / `set_executor(2, some 1)` succeed. -/
theorem update_success_frame_witness :
    (∃ o ∈ sMock.orders, o.id = 2) ∧
    UpdateSuccessFrame mockUsers sMock 2 OrderStatus.inProgress (some 1) :=
  ⟨by decide, update_success_frame mockUsers sMock 2 OrderStatus.inProgress (some 1) (by decide)⟩

/-- C6: a failing `set_status` / `set_executor` leaves the whole cached
controller state untouched and signals the failure with an error toast. -/
theorem update_failure_untouched (users : List User) (s : OrderListState) (orderId : Nat)
    (newStatus : OrderStatus) (executorId : Option Nat) (e : Unit) :
    (handleStatusChange s orderId newStatus (Except.error e)).state = s ∧
    (handleStatusChange s orderId newStatus (Except.error e)).toasts = [Toast.error] ∧
    (handleExecutorChange users s orderId executorId (Except.error e)).state = s ∧
    (handleExecutorChange users s orderId executorId (Except.error e)).toasts = [Toast.error] :=
  ⟨rfl, rfl, rfl, rfl⟩

/-- A controller state currently on page 3. -/
def sPage3 : OrderListState :=
  { orders := [], loading := false, error := none, filters := noFilters,
    pagination := { page := 3, page_size := 20, total := 47 } }

/-- Counterexample to C7: `change_page_size(50)` from page 3 followed by a
failing reload leaves the current page at 3, not 1 — the handler writes no
page reset into the state before the reload settles. -/
theorem pageSize_reset_counterexample :
    (handlePageSizeChange sPage3 50 (Except.error ())).state.pagination.page = 3 ∧
    (handlePageSizeChange sPage3 50 (Except.error ())).state.pagination.page ≠ 1 := by
  decide

/-- C7 amended: `apply_filters(criteria)` stores `criteria` and resets the
current page to 1 whether the reload succeeds (response echoing page 1) or
fails; `change_page_size(size)` requests the reload with page 1 and the new
size and the current page becomes 1 on success, but a failed reload leaves
the current page at its previous value. -/
def PageResetAmended (s : OrderListState) (criteria : OrderFilters) (size : Nat)
    (resp : OrderListResponse) : Prop :=
  ((handleFiltersChange s criteria (Except.ok resp)).state.filters = criteria ∧
   (handleFiltersChange s criteria (Except.ok resp)).state.pagination.page = 1) ∧
  (∀ e, (handleFiltersChange s criteria (Except.error e)).state.filters = criteria ∧
        (handleFiltersChange s criteria (Except.error e)).state.pagination.page = 1) ∧
  (∀ r, (handlePageSizeChange s size r).requests = [ApiRequest.search s.filters 1 size]) ∧
  ((handlePageSizeChange s size (Except.ok resp)).state.pagination.page = 1 ∧
   (handlePageSizeChange s size (Except.ok resp)).state.pagination.page_size = resp.page_size) ∧
  (∀ e, (handlePageSizeChange s size (Except.error e)).state.pagination.page = s.pagination.page)

/-- C7 amended, proved: see `PageResetAmended`. -/
theorem applyFilters_resets_page (s : OrderListState) (criteria : OrderFilters)
    (size : Nat) (resp : OrderListResponse) (hresp : resp.page = 1) :
    PageResetAmended s criteria size resp := by
  refine ⟨⟨rfl, ?_⟩, fun e => ⟨rfl, rfl⟩, fun r => ?_, ⟨?_, rfl⟩, fun e => rfl⟩
  · simp [handleFiltersChange, loadOrders, hresp]
  · cases r <;> rfl
  · simp [handlePageSizeChange, loadOrders, hresp]

/-- A reload response echoing page 1. -/
def respEcho1 : OrderListResponse :=
  { orders := [], total := 47, page := 1, page_size := 50 }

/-- Witness for the amended C7 at a concrete state and response. -/
theorem applyFilters_resets_page_witness :
    respEcho1.page = 1 ∧ PageResetAmended sPage3 noFilters 50 respEcho1 :=
  ⟨rfl, applyFilters_resets_page sPage3 noFilters 50 respEcho1 rfl⟩

/-! ## Claims about the mock collaborator's filters -/

lemma mem_of_optFilter {g : Option (Order → Bool)} {l : List Order} {o : Order}
    (h : o ∈ optFilter g l) : o ∈ l := by
  cases g with
  | none => exact h
  | some q => exact List.mem_of_mem_filter h

lemma mem_optFilter_some {q : Order → Bool} {l : List Order} {o : Order} :
    o ∈ optFilter (some q) l ↔ o ∈ l ∧ q o = true :=
  List.mem_filter

/-- A filter object with only the price bounds set. -/
def priceOnlyFilters (mn mx : Option Nat) : OrderFilters :=
  { noFilters with min_price := mn, max_price := mx }

/-- Counterexample to C8 as universally stated: with `min_price` and
`max_price` both *set* but set to `0`, JavaScript truthiness deactivates
both price steps, so `mockApiCall` returns the order priced 25000 even
though `25000 ≤ 0` fails. -/
theorem price_filter_zero_counterexample :
    mockOrder2 ∈ (mockApiCall (priceOnlyFilters (some 0) (some 0)) 1 20).orders ∧
    mockOrder2.total_price = some 25000 ∧ ¬(25000 ≤ 0) := by
  decide

/-- The amended C8 property: for price bounds both set to non-zero values
the filter chain keeps exactly the records whose price `p` satisfies
`mn ≤ p ≤ mx` (both bounds inclusive), and the spec's scenario holds:
`{min_price: 10000, max_price: 20000}` against the records priced
`[15000, 25000, 8000, 12000]` yields exactly the 15000 and 12000 records. -/
def PriceFilterAmended (mn mx : Nat) (records : List Order) (o : Order) : Prop :=
  (o ∈ filterOrders (priceOnlyFilters (some mn) (some mx)) records ↔
      o ∈ records ∧ ∃ p, o.total_price = some p ∧ mn ≤ p ∧ p ≤ mx) ∧
  (mockApiCall (priceOnlyFilters (some 10000) (some 20000)) 1 20).orders
      = [mockOrder1, mockOrder4]

/-- C8 amended, proved: see `PriceFilterAmended` (the claim holds once both
bounds are non-zero, which the counterexample shows is necessary). -/
theorem price_filter_inclusive (mn mx : Nat) (records : List Order) (o : Order)
    (hmn : mn ≠ 0) (hmx : mx ≠ 0) : PriceFilterAmended mn mx records o := by
  refine ⟨?_, by decide⟩
  cases hp : o.total_price with
  | none =>
      simp [filterOrders, priceOnlyFilters, noFilters, statusGuard, phoneGuard,
        executorGuard, dateFromGuard, dateToGuard, minPriceGuard, maxPriceGuard,
        optFilter, hmn, hmx, List.mem_filter, hp]
  | some p =>
      simp only [filterOrders, priceOnlyFilters, noFilters, statusGuard, phoneGuard,
        executorGuard, dateFromGuard, dateToGuard, minPriceGuard, maxPriceGuard,
        optFilter, if_neg hmn, if_neg hmx, List.mem_filter, hp]
      constructor
      · rintro ⟨⟨hm, h1⟩, h2⟩
        simp at h1 h2
        exact ⟨hm, p, rfl, h1.2, h2.2⟩
      · rintro ⟨hm, q, hq, hq1, hq2⟩
        cases hq
        refine ⟨⟨hm, ?_⟩, ?_⟩ <;> simp <;> omega

/-- Witness for the amended C8 at the spec's scenario bounds. -/
theorem price_filter_inclusive_witness :
    (10000 ≠ 0) ∧ (20000 ≠ 0) ∧ PriceFilterAmended 10000 20000 mockOrders mockOrder1 :=
  ⟨by decide, by decide,
    price_filter_inclusive 10000 20000 mockOrders mockOrder1 (by decide) (by decide)⟩

/-- C9: whenever `min_price` (or `max_price`) is set to a non-zero value, no
order with a null `total_price` survives the pipeline: the truthiness guard
`order.total_price && ...` rejects it before the bound is even compared. -/
theorem null_price_excluded (f : OrderFilters) (records : List Order) (o : Order)
    (page pageSize : Nat)
    (hf : (∃ m, f.min_price = some m ∧ m ≠ 0) ∨ (∃ m, f.max_price = some m ∧ m ≠ 0))
    (ho : o ∈ (searchOrders records f page pageSize).orders) :
    o.total_price ≠ none := by
  have hsorted : o ∈ sortOrdersDesc (filterOrders f records) :=
    List.mem_of_mem_drop (List.mem_of_mem_take ho)
  have hfiltered : o ∈ filterOrders f records := by
    rw [sortOrdersDesc, List.mem_insertionSort] at hsorted
    exact hsorted
  intro hnone
  rcases hf with ⟨m, hm, hm0⟩ | ⟨m, hm, hm0⟩
  · have hg : minPriceGuard f =
        some fun o =>
          match o.total_price with
          | some p => decide (p ≠ 0) && decide (m ≤ p)
          | none => false := by
      simp [minPriceGuard, hm, hm0]
    have h1 : o ∈ optFilter (minPriceGuard f)
        (optFilter (dateToGuard f)
          (optFilter (dateFromGuard f)
            (optFilter (executorGuard f)
              (optFilter (phoneGuard f)
                (optFilter (statusGuard f) records))))) :=
      mem_of_optFilter hfiltered
    rw [hg, mem_optFilter_some] at h1
    have := h1.2
    simp [hnone] at this
  · have hg : maxPriceGuard f =
        some fun o =>
          match o.total_price with
          | some p => decide (p ≠ 0) && decide (p ≤ m)
          | none => false := by
      simp [maxPriceGuard, hm, hm0]
    have h1 : o ∈ filterOrders f records := hfiltered
    rw [filterOrders, hg, mem_optFilter_some] at h1
    have := h1.2
    simp [hnone] at this

/-- Witness for C9: a non-zero `min_price` filter applied to a record set
containing only the 15000-priced order. -/
theorem null_price_excluded_witness :
    mockOrder1 ∈ (searchOrders [mockOrder1] (priceOnlyFilters (some 10000) none) 1 20).orders ∧
    mockOrder1.total_price ≠ none :=
  ⟨by decide,
    null_price_excluded (priceOnlyFilters (some 10000) none) [mockOrder1] mockOrder1 1 20
      (Or.inl ⟨10000, rfl, by decide⟩) (by decide)⟩

/-- A filter object with only the phone substring set. -/
def phoneOnlyFilters (s : String) : OrderFilters :=
  { noFilters with client_phone := some s }

/-- The C10 property: the phone filter keeps exactly the orders whose client
phone *or* recipient phone contains the filter string. -/
def PhoneFilterSpec (s : String) (records : List Order) (o : Order) : Prop :=
  o ∈ filterOrders (phoneOnlyFilters s) records ↔
    o ∈ records ∧
      (containsSubstr o.client.phone s = true ∨ containsSubstr o.recipient.phone s = true)

/-- C10: for every non-empty phone filter string `s`, an order passes the
filter pipeline iff `s` is a substring of its client's phone number or of
its recipient's phone number — the filter matches both parties. -/
theorem phone_filter_matches_both (s : String) (records : List Order) (o : Order)
    (hs : s ≠ "") : PhoneFilterSpec s records o := by
  unfold PhoneFilterSpec
  simp [filterOrders, phoneOnlyFilters, noFilters, statusGuard, phoneGuard,
    executorGuard, dateFromGuard, dateToGuard, minPriceGuard, maxPriceGuard,
    optFilter, hs, List.mem_filter]

/-- Witness for C10: the substring "7012" of the client phone of the first
mock order. -/
theorem phone_filter_matches_both_witness :
    ("7012" ≠ "") ∧ PhoneFilterSpec "7012" mockOrders mockOrder1 :=
  ⟨by decide, phone_filter_matches_both "7012" mockOrders mockOrder1 (by decide)⟩

end Leken
